import Mathlib

/-!
Shallow embedding of the server-side user-authentication subsystem of the
dropbear_disableauth repository.  The repository ships two variants of
auth.c: part_000 (here suffixed _v0) keeps the authdone short-circuit,
banner emission and a service-name check before sending success, while
part_001 (suffixed _v1) sends success unconditionally and stubs out
send_msg_userauth_failure.  Both variants share send_msg_userauth_success
and part_001 additionally contains the (uncalled) checkusername routine.

Machine strings are modelled as lists of byte values; the length returned
by buf_getstring is the length of that list.  External collaborators
(getpwnam, geteuid, getgrouplist, getusershell, the random source and the
clock) are parameters of the corresponding functions.
-/

namespace DropbearAuth

/-- Byte strings as they travel on the wire: a list of byte values. -/
abbrev Bytes := List Nat

/-- Bytes of a Lean string literal (ASCII code points). -/
def str2bytes (s : String) : Bytes := s.data.map Char.toNat

/-- struct timespec with signed seconds and nanoseconds. -/
structure Timespec where
  tv_sec : Int
  tv_nsec : Int
deriving DecidableEq

/-- The per-connection authentication state ses.authstate.  The authtypes
bitmask is modelled by one Boolean per bit actually used by the code. -/
structure AuthState where
  authdone : Bool
  pubkeyEnabled : Bool
  passwordEnabled : Bool
  failcount : Nat
  username : Option Bytes
  checkusername_failed : Bool
  pw_name : Option String
  pw_uid : Nat
  pw_gid : Nat
  pw_shell : String
  auth_starttime : Timespec
deriving DecidableEq

/-- The session-level fields of ses touched by this subsystem, together
with svr_opts.banner, which recv_msg_userauth_request mutates (frees). -/
structure World where
  authstate : AuthState
  allowprivport : Bool
  connect_time : Nat
  banner : Option Bytes
deriving DecidableEq

/-- Wire messages emitted by the subsystem. -/
inductive Msg where
  | banner : Bytes → Msg
  | failure : String → Bool → Msg
  | success : Msg
deriving DecidableEq

/-- Whether a message is a USERAUTH_FAILURE message. -/
def Msg.isFailure : Msg → Bool
  | .failure _ _ => true
  | _ => false

/-- The distinct dropbear_exit call sites of the embedded code. -/
inductive ExitReason where
  | unknownService
  | nullByteUsername
  | multipleUsernames
  | maxAuthTries
deriving DecidableEq

/-- Result of a step: either a value, or process termination via
dropbear_exit. -/
inductive Outcome (α : Type) where
  | ok : α → Outcome α
  | exited : ExitReason → Outcome α
deriving DecidableEq

/-- Whether an outcome is a normal (non-exiting) result. -/
def Outcome.isOk {α : Type} : Outcome α → Bool
  | .ok _ => true
  | .exited _ => false

/-- SSH_SERVICE_CONNECTION from ssh.h. -/
def SSH_SERVICE_CONNECTION : Bytes := str2bytes "ssh-connection"

/-- SSH_SERVICE_CONNECTION_LEN from ssh.h. -/
def SSH_SERVICE_CONNECTION_LEN : Nat := 14

/-- C strncmp on NUL-terminated strings: the byte at or past the end of
the stored list is the terminating 0.  Returns the (sign-bearing)
difference at the first differing position within the first n bytes. -/
def strncmp (a b : Bytes) (n : Nat) : Int :=
  match n with
  | 0 => 0
  | n + 1 =>
    let x := a.headD 0
    let y := b.headD 0
    if x ≠ y then (x : Int) - (y : Int)
    else if x = 0 then 0
    else strncmp a.tail b.tail n

/-- C strlen of the stored bytes: length up to the first embedded 0. -/
def strlen (b : Bytes) : Nat := (b.takeWhile (fun c => c ≠ 0)).length

/-- The all-zero authstate produced by memset(&ses.authstate, 0, ...). -/
def zeroAuthState : AuthState :=
  { authdone := false
    pubkeyEnabled := false
    passwordEnabled := false
    failcount := 0
    username := none
    checkusername_failed := false
    pw_name := none
    pw_uid := 0
    pw_gid := 0
    pw_shell := ""
    auth_starttime := ⟨0, 0⟩ }

/-- svr_authinitialise of the part_000 variant: memset to zero, then set
the pubkey bit when compiled with pubkey auth, and the password bit when
compiled with password/PAM auth and svr_opts.noauthpass is unset. -/
def svr_authinitialise_v0 (pubkeyAuth passwordAuth noauthpass : Bool) : AuthState :=
  let a := zeroAuthState
  let a := if pubkeyAuth then { a with pubkeyEnabled := true } else a
  if passwordAuth ∧ ¬noauthpass then { a with passwordEnabled := true } else a

/-- svr_authinitialise of the part_001 variant: memset to zero only; the
authtypes initialisation is commented out. -/
def svr_authinitialise_v1 : AuthState := zeroAuthState

/-- A session world at the start of the post-kex phase: a given authstate,
allowprivport clear, and the configured banner (if any). -/
def initWorld (a : AuthState) (banner : Option Bytes) (ct : Nat) : World :=
  { authstate := a, allowprivport := false, connect_time := ct, banner := banner }

/-- send_msg_userauth_success, identical in both variants: emit the
success message, set authdone, zero connect_time, and grant allowprivport
when the stored pw_uid is 0. -/
def send_msg_userauth_success (w : World) : List Msg × World :=
  let w1 : World := { w with authstate := { w.authstate with authdone := true }, connect_time := 0 }
  let w2 : World := if w1.authstate.pw_uid = 0 then { w1 with allowprivport := true } else w1
  ([Msg.success], w2)

/-- Lines 86-91 of part_000: emit the banner once if configured, then
free it (set it to NULL). -/
def bannerStep (w : World) : List Msg × World :=
  match w.banner with
  | some b => ([Msg.banner b], { w with banner := none })
  | none => ([], w)

/-- recv_msg_userauth_request of the part_000 variant: return at once if
authdone; emit the banner; read the three strings; exit when the service
length differs from SSH_SERVICE_CONNECTION_LEN and the first
SSH_SERVICE_CONNECTION_LEN bytes also differ; otherwise send success. -/
def recv_msg_userauth_request_v0 (req : Bytes × Bytes × Bytes) (w : World) :
    List Msg × Outcome World :=
  if w.authstate.authdone then ([], .ok w)
  else
    let bw := bannerStep w
    if req.2.1.length ≠ SSH_SERVICE_CONNECTION_LEN ∧
        strncmp req.2.1 SSH_SERVICE_CONNECTION SSH_SERVICE_CONNECTION_LEN ≠ 0 then
      (bw.1, .exited .unknownService)
    else
      (bw.1 ++ (send_msg_userauth_success bw.2).1, .ok (send_msg_userauth_success bw.2).2)

/-- recv_msg_userauth_request of the part_001 variant: ignore the request
entirely and send success. -/
def recv_msg_userauth_request_v1 (_req : Bytes × Bytes × Bytes) (w : World) :
    List Msg × Outcome World :=
  ((send_msg_userauth_success w).1, .ok (send_msg_userauth_success w).2)

/-- Process a list of userauth requests with the part_000 dispatcher,
stopping at the first dropbear_exit. -/
def runRequests_v0 : List (Bytes × Bytes × Bytes) → World → List Msg × Outcome World
  | [], w => ([], .ok w)
  | r :: rs, w =>
    match recv_msg_userauth_request_v0 r w with
    | (ms, .ok w1) =>
      let rest := runRequests_v0 rs w1
      (ms ++ rest.1, rest.2)
    | (ms, .exited e) => (ms, .exited e)

/-- Process a list of userauth requests with the part_001 dispatcher. -/
def runRequests_v1 : List (Bytes × Bytes × Bytes) → World → List Msg × Outcome World
  | [], w => ([], .ok w)
  | r :: rs, w =>
    match recv_msg_userauth_request_v1 r w with
    | (ms, .ok w1) =>
      let rest := runRequests_v1 rs w1
      (ms ++ rest.1, rest.2)
    | (ms, .exited e) => (ms, .exited e)

/-- AUTH_METHOD_PUBKEY from auth.h. -/
def AUTH_METHOD_PUBKEY : String := "publickey"

/-- AUTH_METHOD_PASSWORD from auth.h. -/
def AUTH_METHOD_PASSWORD : String := "password"

/-- The comma-joined method-name list placed in a failure message, built
exactly as the typebuf loop of send_msg_userauth_failure does. -/
def methodsList (a : AuthState) : String :=
  (if a.pubkeyEnabled then
      AUTH_METHOD_PUBKEY ++ (if a.passwordEnabled then "," else "")
    else "")
    ++ (if a.passwordEnabled then AUTH_METHOD_PASSWORD else "")

/-- The mindelay constant of send_msg_userauth_failure, in nanoseconds. -/
def mindelay : Int := 250000000

/-- The vardelay constant of send_msg_userauth_failure, in nanoseconds. -/
def vardelay : Int := 100000000

/-- rand_delay = mindelay + (rand_delay % vardelay), where rand_delay was
filled with random bytes and suseconds_t is signed, so the C % is the
truncated (sign-of-dividend) remainder, Int.tmod. -/
def rand_delay (r : Int) : Int := mindelay + Int.tmod r vardelay

/-- The elapsed-time computation of send_msg_userauth_failure: component
wise subtraction of auth_starttime from the current time followed by the
nanosecond carry. -/
def elapsed_time (starttime now : Timespec) : Timespec :=
  let d0 : Timespec := ⟨now.tv_sec - starttime.tv_sec, now.tv_nsec - starttime.tv_nsec⟩
  if d0.tv_nsec < 0 then ⟨d0.tv_sec - 1, d0.tv_nsec + 1000000000⟩ else d0

/-- The timespec handed to nanosleep by the incrfail branch: when the
elapsed seconds are 0 and the elapsed nanoseconds are at most mindelay,
only the nanosecond field is replaced by rand_delay minus the elapsed
nanoseconds; otherwise the full rand_delay is slept. -/
def failure_delay (starttime now : Timespec) (r : Int) : Timespec :=
  let d := elapsed_time starttime now
  if d.tv_sec = 0 ∧ d.tv_nsec ≤ mindelay then ⟨d.tv_sec, rand_delay r - d.tv_nsec⟩
  else ⟨0, rand_delay r⟩

/-- send_msg_userauth_failure of the part_000 variant: emit the failure
message; when incrfail, sleep the computed delay and increment failcount;
exit when failcount has reached svr_opts.maxauthtries.  The current time
and the drawn random bytes (as a signed suseconds_t value) are inputs.
The middle component records the timespec passed to nanosleep, if any. -/
def send_msg_userauth_failure_v0 (maxauthtries : Nat) (now : Timespec) (r : Int)
    (pflag incrfail : Bool) (w : World) : List Msg × Option Timespec × Outcome World :=
  let msg := Msg.failure (methodsList w.authstate) pflag
  let slept : Option Timespec :=
    if incrfail then some (failure_delay w.authstate.auth_starttime now r) else none
  let w1 : World :=
    if incrfail then
      { w with authstate := { w.authstate with failcount := w.authstate.failcount + 1 } }
    else w
  if w1.authstate.failcount ≥ maxauthtries then ([msg], slept, .exited .maxAuthTries)
  else ([msg], slept, .ok w1)

/-- send_msg_userauth_failure of the part_001 variant: an immediate
return; no message, no sleep, no state change, no exit. -/
def send_msg_userauth_failure_v1 (_pflag _incrfail : Bool) (w : World) :
    List Msg × Option Timespec × Outcome World :=
  ([], none, .ok w)

/-- A local account record as returned by getpwnam. -/
structure Passwd where
  pw_name : String
  pw_uid : Nat
  pw_gid : Nat
  pw_shell : String
deriving DecidableEq

/-- The environment read by checkusername: configuration values and the
external collaborators (identity database, effective uid, group list,
login-shell list). -/
structure CheckEnv where
  maxUsernameLen : Nat
  multiuser : Bool
  euid : Nat
  norootlogin : Bool
  restrictGroup : Option Nat
  grouplist : Option (List Nat)
  shells : List String
  getpwnam : Bytes → Option Passwd

/-- Modelled from the spec: fill_passwd (the account_lookup resolution
step) is declared in auth.h but its definition is not among the excerpted
sources.  Per the spec, the first request resolves the local account and
stores it, absence itself being remembered: a found entry populates the
pw fields, a missing account leaves pw_name unset. -/
def fill_passwd (entry : Option Passwd) (a : AuthState) : AuthState :=
  match entry with
  | none => { a with pw_name := none }
  | some p =>
    { a with pw_name := some p.pw_name, pw_uid := p.pw_uid, pw_gid := p.pw_gid,
             pw_shell := p.pw_shell }

/-- check_group_membership of part_001: obtain the group list of the account
via getgrouplist (retrieval failure yields DROPBEAR_FAILURE) and search
it for the required gid. -/
def check_group_membership (check_gid : Nat) (grouplist : Option (List Nat)) : Bool :=
  match grouplist with
  | none => false
  | some l => l.contains check_gid

/-- The policy portion of checkusername, entered after the username has
been bound: cached verdict, existence, uid-versus-server check, root
login, group restriction, and login-shell check, in source order, each
failure setting the cached-failure flag. -/
def checkusername_policy (env : CheckEnv) (a : AuthState) : Bool × AuthState :=
  if a.checkusername_failed then (false, a)
  else if a.pw_name.isNone then (false, { a with checkusername_failed := true })
  else if !(env.multiuser && env.euid == 0) && !(env.euid == a.pw_uid) then
    (false, { a with checkusername_failed := true })
  else if env.norootlogin && a.pw_uid == 0 then
    (false, { a with checkusername_failed := true })
  else if (match env.restrictGroup with
           | some gid => !(check_group_membership gid env.grouplist)
           | none => false) then
    (false, { a with checkusername_failed := true })
  else if env.shells.contains (if a.pw_shell = "" then "/bin/sh" else a.pw_shell) then
    (true, a)
  else (false, { a with checkusername_failed := true })

/-- checkusername of part_001: length guard, embedded-NUL guard (fatal),
first-request binding via fill_passwd, changed-username guard (fatal),
then the policy checks.  Returns DROPBEAR_SUCCESS as true. -/
def checkusername (env : CheckEnv) (username : Bytes) (userlen : Nat) (a : AuthState) :
    Outcome (Bool × AuthState) :=
  if userlen > env.maxUsernameLen then .ok (false, a)
  else if strlen username ≠ userlen then .exited .nullByteUsername
  else
    match a.username with
    | none =>
      let a1 := fill_passwd (env.getpwnam username) a
      .ok (checkusername_policy env { a1 with username := some username })
    | some u =>
      if username ≠ u then .exited .multipleUsernames
      else .ok (checkusername_policy env a)

/-- Whether a checkusername outcome is an acceptance. -/
def acceptedResult : Outcome (Bool × AuthState) → Bool
  | .ok (true, _) => true
  | .ok (false, _) => false
  | .exited _ => false

lemma send_msg_userauth_success_fst (w : World) :
    (send_msg_userauth_success w).1 = [Msg.success] := rfl

lemma send_msg_userauth_success_authstate (w : World) :
    (send_msg_userauth_success w).2.authstate = { w.authstate with authdone := true } := by
  by_cases h : w.authstate.pw_uid = 0 <;> simp [send_msg_userauth_success, h]

lemma send_msg_userauth_success_allowprivport (w : World) :
    (send_msg_userauth_success w).2.allowprivport =
      (if w.authstate.pw_uid = 0 then true else w.allowprivport) := by
  by_cases h : w.authstate.pw_uid = 0 <;> simp [send_msg_userauth_success, h]

lemma bannerStep_authstate (w : World) : (bannerStep w).2.authstate = w.authstate := by
  cases h : w.banner <;> simp [bannerStep, h]

lemma bannerStep_allowprivport (w : World) :
    (bannerStep w).2.allowprivport = w.allowprivport := by
  cases h : w.banner <;> simp [bannerStep, h]

lemma bannerStep_msgs (w : World) : ∀ m ∈ (bannerStep w).1, m.isFailure = false := by
  cases h : w.banner <;> simp [bannerStep, h, Msg.isFailure]

lemma recv_v0_eq (r : Bytes × Bytes × Bytes) (w : World) :
    recv_msg_userauth_request_v0 r w =
      if w.authstate.authdone then ([], .ok w)
      else if r.2.1.length ≠ SSH_SERVICE_CONNECTION_LEN ∧
          strncmp r.2.1 SSH_SERVICE_CONNECTION SSH_SERVICE_CONNECTION_LEN ≠ 0 then
        ((bannerStep w).1, .exited .unknownService)
      else ((bannerStep w).1 ++ [Msg.success],
            .ok (send_msg_userauth_success (bannerStep w).2).2) := rfl

lemma recv_v0_ok {r : Bytes × Bytes × Bytes} {w w' : World}
    (h : (recv_msg_userauth_request_v0 r w).2 = .ok w') :
    w' = w ∨ w' = (send_msg_userauth_success (bannerStep w).2).2 := by
  rw [recv_v0_eq] at h
  split_ifs at h
  · simp at h
    exact Or.inl h.symm
  · simp at h
    exact Or.inr h.symm

lemma recv_v0_exit {r : Bytes × Bytes × Bytes} {w : World} {e : ExitReason}
    (h : (recv_msg_userauth_request_v0 r w).2 = .exited e) : e = .unknownService := by
  rw [recv_v0_eq] at h
  split_ifs at h
  simp at h
  exact h.symm

lemma recv_v0_no_failure {r : Bytes × Bytes × Bytes} {w : World} :
    ∀ m ∈ (recv_msg_userauth_request_v0 r w).1, m.isFailure = false := by
  rw [recv_v0_eq]
  split_ifs <;> intro m hm
  · simp at hm
  · exact bannerStep_msgs w m hm
  · rcases List.mem_append.mp hm with h | h
    · exact bannerStep_msgs w m h
    · simp at h
      subst h
      rfl

lemma recv_v1_eq (r : Bytes × Bytes × Bytes) (w : World) :
    recv_msg_userauth_request_v1 r w =
      ([Msg.success], .ok (send_msg_userauth_success w).2) := rfl

lemma runRequests_v0_cons (r : Bytes × Bytes × Bytes) (rs : List (Bytes × Bytes × Bytes))
    (w : World) :
    runRequests_v0 (r :: rs) w =
      match recv_msg_userauth_request_v0 r w with
      | (ms, .ok w1) => (ms ++ (runRequests_v0 rs w1).1, (runRequests_v0 rs w1).2)
      | (ms, .exited e) => (ms, .exited e) := by
  rcases h : recv_msg_userauth_request_v0 r w with ⟨ms, o⟩
  cases o <;> simp [runRequests_v0, h]

lemma runRequests_v1_cons (r : Bytes × Bytes × Bytes) (rs : List (Bytes × Bytes × Bytes))
    (w : World) :
    runRequests_v1 (r :: rs) w =
      (Msg.success :: (runRequests_v1 rs (send_msg_userauth_success w).2).1,
       (runRequests_v1 rs (send_msg_userauth_success w).2).2) := rfl

lemma neg_tmod_eq (a b : Int) : (-a).tmod b = -(a.tmod b) := by
  simp [Int.tmod_def, Int.neg_tdiv]
  ring

lemma tmod_lower_bound (a b : Int) (hb : 0 < b) : -b < a.tmod b := by
  rcases le_or_lt 0 a with h | h
  · have h1 := Int.tmod_nonneg b h
    omega
  · have h1 : 0 ≤ (-a).tmod b := Int.tmod_nonneg b (by omega)
    have h2 : (-a).tmod b < b := Int.tmod_lt_of_pos (-a) hb
    have h3 : (-a).tmod b = -(a.tmod b) := neg_tmod_eq a b
    omega

/-- A fresh part_001 session world (no banner configured). -/
def w0v1 : World := initWorld svr_authinitialise_v1 none 5

/-- A fresh part_000 session world with both method bits enabled. -/
def w0v0 : World := initWorld (svr_authinitialise_v0 true true false) none 7

/-- A request authenticating as alice with the correct service name. -/
def reqAlice : Bytes × Bytes × Bytes :=
  (str2bytes "alice", str2bytes "ssh-connection", str2bytes "none")

/-- A request authenticating as bob with the correct service name. -/
def reqBob : Bytes × Bytes × Bytes :=
  (str2bytes "bob", str2bytes "ssh-connection", str2bytes "none")

/-- A password-method request for root with the correct service name. -/
def reqPassword : Bytes × Bytes × Bytes :=
  (str2bytes "root", str2bytes "ssh-connection", str2bytes "password")

/-- A request whose service name is longer than ssh-connection but whose
first 14 bytes coincide with it. -/
def reqLong : Bytes × Bytes × Bytes :=
  (str2bytes "alice", str2bytes "ssh-connection-extra", str2bytes "none")

/-- A request whose service name has the right length but wrong bytes. -/
def reqShortBad : Bytes × Bytes × Bytes :=
  (str2bytes "alice", str2bytes "xsh-connection", str2bytes "none")

/-- A request whose service name differs in both length and content. -/
def reqBad : Bytes × Bytes × Bytes :=
  (str2bytes "alice", str2bytes "not-ssh", str2bytes "none")

/-- A zero-initialised session world used for failure-responder inputs. -/
def wF : World := initWorld zeroAuthState none 0

/-- A concrete validator environment: multi-user build running with
effective uid 5, no root-login ban, no group restriction, one shell, and
an identity database containing only carol with uid 7. -/
def envX : CheckEnv :=
  { maxUsernameLen := 100
    multiuser := true
    euid := 5
    norootlogin := false
    restrictGroup := none
    grouplist := some []
    shells := ["/bin/sh"]
    getpwnam := fun u => if u = str2bytes "carol" then some ⟨"carol", 7, 7, "/bin/sh"⟩ else none }

/-- envX with a single-user build running as the uid of carol. -/
def envY : CheckEnv := { envX with multiuser := false, euid := 7 }

lemma recv_v0_ok_authstate {r : Bytes × Bytes × Bytes} {w w' : World}
    (h : (recv_msg_userauth_request_v0 r w).2 = .ok w') :
    w'.authstate = w.authstate ∨ w'.authstate = { w.authstate with authdone := true } := by
  rcases recv_v0_ok h with rfl | rfl
  · exact Or.inl rfl
  · right
    rw [send_msg_userauth_success_authstate, bannerStep_authstate]

lemma recv_v1_ok_world {r : Bytes × Bytes × Bytes} {w w' : World}
    (h : (recv_msg_userauth_request_v1 r w).2 = .ok w') :
    w' = (send_msg_userauth_success w).2 := by
  rw [recv_v1_eq] at h
  simp at h
  exact h.symm

lemma runRequests_v0_fields (reqs : List (Bytes × Bytes × Bytes)) :
    ∀ w w' : World, (runRequests_v0 reqs w).2 = .ok w' →
      w'.authstate.failcount = w.authstate.failcount ∧
      w'.authstate.username = w.authstate.username ∧
      w'.authstate.pw_uid = w.authstate.pw_uid := by
  induction reqs with
  | nil =>
    intro w w' h
    simp [runRequests_v0] at h
    subst h
    exact ⟨rfl, rfl, rfl⟩
  | cons r rs ih =>
    intro w w' h
    rw [runRequests_v0_cons] at h
    rcases hstep : recv_msg_userauth_request_v0 r w with ⟨ms, o⟩
    rw [hstep] at h
    cases o with
    | ok w1 =>
      simp at h
      have hf := ih w1 w' h
      have h1 : (recv_msg_userauth_request_v0 r w).2 = .ok w1 := by rw [hstep]
      rcases recv_v0_ok_authstate h1 with ha | ha <;>
        simp [hf.1, hf.2.1, hf.2.2, ha]
    | exited e => simp at h

lemma runRequests_v1_fields (reqs : List (Bytes × Bytes × Bytes)) :
    ∀ w w' : World, (runRequests_v1 reqs w).2 = .ok w' →
      w'.authstate.failcount = w.authstate.failcount ∧
      w'.authstate.username = w.authstate.username ∧
      w'.authstate.pw_uid = w.authstate.pw_uid := by
  induction reqs with
  | nil =>
    intro w w' h
    simp [runRequests_v1] at h
    subst h
    exact ⟨rfl, rfl, rfl⟩
  | cons r rs ih =>
    intro w w' h
    rw [runRequests_v1_cons] at h
    simp at h
    have hf := ih _ w' h
    simp [hf.1, hf.2.1, hf.2.2, send_msg_userauth_success_authstate]

lemma runRequests_v0_exit (reqs : List (Bytes × Bytes × Bytes)) :
    ∀ (w : World) (e : ExitReason), (runRequests_v0 reqs w).2 = .exited e →
      e = .unknownService := by
  induction reqs with
  | nil =>
    intro w e h
    simp [runRequests_v0] at h
  | cons r rs ih =>
    intro w e h
    rw [runRequests_v0_cons] at h
    rcases hstep : recv_msg_userauth_request_v0 r w with ⟨ms, o⟩
    rw [hstep] at h
    cases o with
    | ok w1 =>
      simp at h
      exact ih w1 e h
    | exited e1 =>
      simp at h
      have h1 : (recv_msg_userauth_request_v0 r w).2 = .exited e1 := by rw [hstep]
      rw [← h]
      exact recv_v0_exit h1

lemma runRequests_v0_no_failure (reqs : List (Bytes × Bytes × Bytes)) :
    ∀ (w : World) (m : Msg), m ∈ (runRequests_v0 reqs w).1 → m.isFailure = false := by
  induction reqs with
  | nil =>
    intro w m h
    simp [runRequests_v0] at h
  | cons r rs ih =>
    intro w m h
    rw [runRequests_v0_cons] at h
    rcases hstep : recv_msg_userauth_request_v0 r w with ⟨ms, o⟩
    rw [hstep] at h
    have hms : ∀ m ∈ ms, Msg.isFailure m = false := by
      intro m hm
      have := @recv_v0_no_failure r w
      rw [hstep] at this
      exact this m hm
    cases o with
    | ok w1 =>
      simp at h
      rcases h with h | h
      · exact hms m h
      · exact ih w1 m h
    | exited e1 =>
      simp at h
      exact hms m h

lemma runRequests_v1_msgs (reqs : List (Bytes × Bytes × Bytes)) :
    ∀ (w : World) (m : Msg), m ∈ (runRequests_v1 reqs w).1 → m = Msg.success := by
  induction reqs with
  | nil =>
    intro w m h
    simp [runRequests_v1] at h
  | cons r rs ih =>
    intro w m h
    rw [runRequests_v1_cons] at h
    simp at h
    rcases h with h | h
    · exact h
    · exact ih _ m h

lemma runRequests_v1_isOk (reqs : List (Bytes × Bytes × Bytes)) :
    ∀ w : World, ((runRequests_v1 reqs w).2).isOk = true := by
  induction reqs with
  | nil =>
    intro w
    rfl
  | cons r rs ih =>
    intro w
    rw [runRequests_v1_cons]
    exact ih _

lemma recv_v0_priv_step {r : Bytes × Bytes × Bytes} {w w' : World}
    (h1 : w.authstate.pw_uid = 0)
    (h2 : w.authstate.authdone = true → w.allowprivport = true)
    (h : (recv_msg_userauth_request_v0 r w).2 = .ok w') :
    w'.authstate.pw_uid = 0 ∧ (w'.authstate.authdone = true → w'.allowprivport = true) := by
  rcases recv_v0_ok h with rfl | rfl
  · exact ⟨h1, h2⟩
  · constructor
    · simp [send_msg_userauth_success_authstate, bannerStep_authstate, h1]
    · intro _
      rw [send_msg_userauth_success_allowprivport]
      have hb : (bannerStep w).2.authstate.pw_uid = 0 := by
        rw [bannerStep_authstate]
        exact h1
      rw [if_pos hb]

lemma runRequests_v0_priv (reqs : List (Bytes × Bytes × Bytes)) :
    ∀ w w' : World, w.authstate.pw_uid = 0 →
      (w.authstate.authdone = true → w.allowprivport = true) →
      (runRequests_v0 reqs w).2 = .ok w' →
      w'.authstate.pw_uid = 0 ∧ (w'.authstate.authdone = true → w'.allowprivport = true) := by
  induction reqs with
  | nil =>
    intro w w' h1 h2 h
    simp [runRequests_v0] at h
    subst h
    exact ⟨h1, h2⟩
  | cons r rs ih =>
    intro w w' h1 h2 h
    rw [runRequests_v0_cons] at h
    rcases hstep : recv_msg_userauth_request_v0 r w with ⟨ms, o⟩
    rw [hstep] at h
    cases o with
    | ok w1 =>
      simp at h
      have hstep1 : (recv_msg_userauth_request_v0 r w).2 = .ok w1 := by rw [hstep]
      have hw1 := recv_v0_priv_step h1 h2 hstep1
      exact ih w1 w' hw1.1 hw1.2 h
    | exited e => simp at h

lemma runRequests_v1_priv (reqs : List (Bytes × Bytes × Bytes)) :
    ∀ w w' : World, w.authstate.pw_uid = 0 →
      (w.authstate.authdone = true → w.allowprivport = true) →
      (runRequests_v1 reqs w).2 = .ok w' →
      w'.authstate.pw_uid = 0 ∧ (w'.authstate.authdone = true → w'.allowprivport = true) := by
  induction reqs with
  | nil =>
    intro w w' h1 h2 h
    simp [runRequests_v1] at h
    subst h
    exact ⟨h1, h2⟩
  | cons r rs ih =>
    intro w w' h1 h2 h
    rw [runRequests_v1_cons] at h
    simp at h
    refine ih _ w' ?_ ?_ h
    · simp [send_msg_userauth_success_authstate, h1]
    · intro _
      rw [send_msg_userauth_success_allowprivport, if_pos h1]

/-- C2: after send_msg_userauth_success completes, allowprivport is 1
whenever the stored pw_uid is 0; both svr_authinitialise variants leave
pw_uid at the zero written by memset; and no dispatcher path modifies
pw_uid or resolves an account, so every session admitted through
recv_msg_userauth_request (either variant, any request sequence) holds
the privileged-port capability regardless of the presented username. -/
theorem admitted_sessions_grant_privport :
    (∀ w : World, w.authstate.pw_uid = 0 →
      (send_msg_userauth_success w).2.allowprivport = true)
    ∧ (∀ pk pa na : Bool, (svr_authinitialise_v0 pk pa na).pw_uid = 0)
    ∧ svr_authinitialise_v1.pw_uid = 0
    ∧ (∀ (reqs : List (Bytes × Bytes × Bytes)) (banner : Option Bytes)
        (pk pa na : Bool) (ct : Nat) (w' : World),
        (runRequests_v0 reqs (initWorld (svr_authinitialise_v0 pk pa na) banner ct)).2
            = .ok w' →
        w'.authstate.authdone = true → w'.allowprivport = true)
    ∧ (∀ (reqs : List (Bytes × Bytes × Bytes)) (banner : Option Bytes) (ct : Nat)
        (w' : World),
        (runRequests_v1 reqs (initWorld svr_authinitialise_v1 banner ct)).2 = .ok w' →
        w'.authstate.authdone = true → w'.allowprivport = true) := by
  refine ⟨?_, ?_, rfl, ?_, ?_⟩
  · intro w h
    rw [send_msg_userauth_success_allowprivport, if_pos h]
  · intro pk pa na
    cases pk <;> cases pa <;> cases na <;> rfl
  · intro reqs banner pk pa na ct w' h
    have h0 : (initWorld (svr_authinitialise_v0 pk pa na) banner ct).authstate.pw_uid = 0 := by
      cases pk <;> cases pa <;> cases na <;> rfl
    have hd : (initWorld (svr_authinitialise_v0 pk pa na) banner ct).authstate.authdone
        = false := by
      cases pk <;> cases pa <;> cases na <;> rfl
    refine (runRequests_v0_priv reqs _ w' h0 (fun hc => ?_) h).2
    rw [hd] at hc
    cases hc
  · intro reqs banner ct w' h
    exact (runRequests_v1_priv reqs _ w' rfl (by intro hc; cases hc) h).2

/-- C2 witness: sending success on a concrete zero-uid session grants
the privileged-port capability. -/
theorem admitted_sessions_grant_privport_witness :
    (send_msg_userauth_success w0v1).2.allowprivport = true :=
  admitted_sessions_grant_privport.1 w0v1 rfl

/-- C10: fail_count is never modified by any reachable operation: the
part_001 send_msg_userauth_failure returns immediately touching nothing,
no part_000 dispatcher path invokes the failure responder (no failure
message is ever emitted and failcount is preserved by every request), and
the max_tries disconnection never occurs, so a client may issue
arbitrarily many requests (part_001 processing never exits at all). -/
theorem failcount_never_modified :
    (∀ (pf incf : Bool) (w : World),
      send_msg_userauth_failure_v1 pf incf w = ([], none, .ok w))
    ∧ (∀ (reqs : List (Bytes × Bytes × Bytes)) (w : World),
        (runRequests_v0 reqs w).2 ≠ .exited .maxAuthTries
        ∧ ∀ w', (runRequests_v0 reqs w).2 = .ok w' →
            w'.authstate.failcount = w.authstate.failcount)
    ∧ (∀ (reqs : List (Bytes × Bytes × Bytes)) (w : World),
        ((runRequests_v1 reqs w).2).isOk = true
        ∧ ∀ w', (runRequests_v1 reqs w).2 = .ok w' →
            w'.authstate.failcount = w.authstate.failcount)
    ∧ (∀ (reqs : List (Bytes × Bytes × Bytes)) (w : World) (m : Msg),
        m ∈ (runRequests_v0 reqs w).1 → m.isFailure = false)
    ∧ (∀ (reqs : List (Bytes × Bytes × Bytes)) (w : World) (m : Msg),
        m ∈ (runRequests_v1 reqs w).1 → m.isFailure = false) := by
  refine ⟨fun _ _ _ => rfl, ?_, ?_, ?_, ?_⟩
  · intro reqs w
    constructor
    · intro h
      have := runRequests_v0_exit reqs w .maxAuthTries h
      cases this
    · intro w' h
      exact (runRequests_v0_fields reqs w w' h).1
  · intro reqs w
    exact ⟨runRequests_v1_isOk reqs w, fun w' h => (runRequests_v1_fields reqs w w' h).1⟩
  · exact fun reqs w m h => runRequests_v0_no_failure reqs w m h
  · intro reqs w m h
    rw [runRequests_v1_msgs reqs w m h]
    rfl

/-- C10 witness: a concrete part_001 failure call is a no-op. -/
theorem failcount_never_modified_witness :
    send_msg_userauth_failure_v1 true true wF = ([], none, .ok wF) :=
  failcount_never_modified.1 true true wF

/-- C1 counterexample: in the part_001 variant no method is enabled, so
by the claim a password request must be answered by FailureResponder; the
dispatcher instead answers the very first request with the success
message and sends no failure. -/
theorem dispatcher_success_without_verifier_cex :
    svr_authinitialise_v1.passwordEnabled = false
    ∧ svr_authinitialise_v1.pubkeyEnabled = false
    ∧ (recv_msg_userauth_request_v1 reqPassword w0v1).1 = [Msg.success] :=
  ⟨rfl, rfl, rfl⟩

/-- C1 amended: the dispatcher never consults AccountValidator,
enabled_methods or a credential verifier and never invokes
FailureResponder: the part_001 variant answers every request with exactly
one success message, and the part_000 variant, when not yet
authenticated, either exits on the service check or emits success; no
failure message is emitted on any path of either variant. -/
theorem dispatcher_unconditional_success :
    (∀ (r : Bytes × Bytes × Bytes) (w : World),
      (recv_msg_userauth_request_v1 r w).1 = [Msg.success])
    ∧ (∀ (r : Bytes × Bytes × Bytes) (w : World) (m : Msg),
        m ∈ (recv_msg_userauth_request_v0 r w).1 → m.isFailure = false)
    ∧ (∀ (r : Bytes × Bytes × Bytes) (w : World) (m : Msg),
        m ∈ (recv_msg_userauth_request_v1 r w).1 → m.isFailure = false)
    ∧ (∀ (r : Bytes × Bytes × Bytes) (w : World), w.authstate.authdone = false →
        (recv_msg_userauth_request_v0 r w).2 = .exited .unknownService
        ∨ Msg.success ∈ (recv_msg_userauth_request_v0 r w).1) := by
  refine ⟨fun r w => rfl, fun r w m h => recv_v0_no_failure m h, ?_, ?_⟩
  · intro r w m h
    rw [recv_v1_eq] at h
    simp at h
    rw [h]
    rfl
  · intro r w hdone
    rw [recv_v0_eq]
    rw [if_neg (by simp [hdone])]
    by_cases hs : r.2.1.length ≠ SSH_SERVICE_CONNECTION_LEN ∧
        strncmp r.2.1 SSH_SERVICE_CONNECTION SSH_SERVICE_CONNECTION_LEN ≠ 0
    · rw [if_pos hs]
      exact Or.inl rfl
    · rw [if_neg hs]
      right
      simp

/-- C1 witness: a fresh part_000 session on a well-formed request is
answered with success (concrete instance of the amended theorem). -/
theorem dispatcher_unconditional_success_witness :
    (recv_msg_userauth_request_v0 reqAlice w0v0).2 = .exited .unknownService
    ∨ Msg.success ∈ (recv_msg_userauth_request_v0 reqAlice w0v0).1 :=
  dispatcher_unconditional_success.2.2.2 reqAlice w0v0 rfl

/-- A session world whose authentication is already complete. -/
def wAuth : World := initWorld { zeroAuthState with authdone := true } none 0

/-- C3 counterexample: in the part_001 variant a request arriving with
authdone already set still produces a success message on the wire, so a
replay after success does produce additional output. -/
theorem replay_after_success_resends_cex :
    wAuth.authstate.authdone = true
    ∧ (recv_msg_userauth_request_v1 reqAlice wAuth).1 = [Msg.success] :=
  ⟨rfl, rfl⟩

/-- C3 amended: the idempotent short-circuit holds only in the part_000
variant, where a request with authdone set returns immediately with no
message and no state change; the part_001 variant emits a success message
on every request, including replays after success. -/
theorem authdone_shortcircuit_v0_not_v1 :
    (∀ (r : Bytes × Bytes × Bytes) (w : World), w.authstate.authdone = true →
      recv_msg_userauth_request_v0 r w = ([], .ok w))
    ∧ (∀ (r : Bytes × Bytes × Bytes) (w : World), w.authstate.authdone = true →
        (recv_msg_userauth_request_v1 r w).1 = [Msg.success]) := by
  constructor
  · intro r w h
    rw [recv_v0_eq, if_pos h]
  · intro r w _
    rfl

/-- C3 witness: the part_000 short-circuit and the part_001 replay
output at the concrete already-authenticated world. -/
theorem authdone_shortcircuit_v0_not_v1_witness :
    recv_msg_userauth_request_v0 reqAlice wAuth = ([], .ok wAuth)
    ∧ (recv_msg_userauth_request_v1 reqAlice wAuth).1 = [Msg.success] :=
  ⟨authdone_shortcircuit_v0_not_v1.1 reqAlice wAuth rfl,
   authdone_shortcircuit_v0_not_v1.2 reqAlice wAuth rfl⟩

/-- C4 counterexample: a service name that differs from ssh-connection
(in length, with matching first 14 bytes, or in content with matching
length) does not terminate the part_000 connection; both requests are
answered with success, because the source exits only when the length
differs AND the compared bytes differ. -/
theorem service_name_conjunctive_check_cex :
    reqLong.2.1 ≠ SSH_SERVICE_CONNECTION
    ∧ reqLong.2.1.length ≠ SSH_SERVICE_CONNECTION_LEN
    ∧ (recv_msg_userauth_request_v0 reqLong w0v0).1 = [Msg.success]
    ∧ ((recv_msg_userauth_request_v0 reqLong w0v0).2).isOk = true
    ∧ reqShortBad.2.1 ≠ SSH_SERVICE_CONNECTION
    ∧ reqShortBad.2.1.length = SSH_SERVICE_CONNECTION_LEN
    ∧ (recv_msg_userauth_request_v0 reqShortBad w0v0).1 = [Msg.success]
    ∧ ((recv_msg_userauth_request_v0 reqShortBad w0v0).2).isOk = true := by
  refine ⟨by decide, by decide, by decide, by decide, by decide, by decide, by decide,
    by decide⟩

/-- C4 amended: the part_000 dispatcher terminates (with no failure
message and failcount unchanged) exactly when the service-name length
differs from SSH_SERVICE_CONNECTION_LEN AND the strncmp comparison over
the first SSH_SERVICE_CONNECTION_LEN bytes also differs; a mismatch of
only one of the two is accepted.  The part_001 variant never performs the
check. -/
theorem service_check_requires_both_mismatches :
    (∀ (r : Bytes × Bytes × Bytes) (w : World), w.authstate.authdone = false →
      ((recv_msg_userauth_request_v0 r w).2 = .exited .unknownService ↔
        (r.2.1.length ≠ SSH_SERVICE_CONNECTION_LEN ∧
          strncmp r.2.1 SSH_SERVICE_CONNECTION SSH_SERVICE_CONNECTION_LEN ≠ 0)))
    ∧ (∀ (r : Bytes × Bytes × Bytes) (w : World) (m : Msg),
        m ∈ (recv_msg_userauth_request_v0 r w).1 → m.isFailure = false)
    ∧ (∀ (r : Bytes × Bytes × Bytes) (w : World) (w' : World),
        (recv_msg_userauth_request_v0 r w).2 = .ok w' →
        w'.authstate.failcount = w.authstate.failcount)
    ∧ (∀ (r : Bytes × Bytes × Bytes) (w : World),
        ((recv_msg_userauth_request_v1 r w).2).isOk = true) := by
  refine ⟨?_, fun r w m h => recv_v0_no_failure m h, ?_, fun r w => rfl⟩
  · intro r w hdone
    rw [recv_v0_eq, if_neg (by simp [hdone])]
    by_cases hs : r.2.1.length ≠ SSH_SERVICE_CONNECTION_LEN ∧
        strncmp r.2.1 SSH_SERVICE_CONNECTION SSH_SERVICE_CONNECTION_LEN ≠ 0
    · rw [if_pos hs]
      simp [hs]
    · rw [if_neg hs]
      simp [hs]
  · intro r w w' h
    rcases recv_v0_ok_authstate h with ha | ha <;> rw [ha]

/-- C4 witness: a fully mismatched service name does exit fatally, while
the two half-mismatches of the counterexample do not. -/
theorem service_check_requires_both_mismatches_witness :
    (recv_msg_userauth_request_v0 reqBad w0v0).2 = .exited .unknownService :=
  (service_check_requires_both_mismatches.1 reqBad w0v0 rfl).mpr (by decide)

/-- C5 counterexample: the part_001 FailureResponder called with
count_toward_limit true emits nothing and leaves failcount at 0 instead
of incrementing it to 1. -/
theorem failure_responder_noop_v1_cex :
    send_msg_userauth_failure_v1 false true wF = ([], none, .ok wF)
    ∧ wF.authstate.failcount = 0 :=
  ⟨rfl, rfl⟩

lemma fail_v0_incr_eq (mt : Nat) (now : Timespec) (r : Int) (pf : Bool) (w : World) :
    send_msg_userauth_failure_v0 mt now r pf true w =
      ([Msg.failure (methodsList w.authstate) pf],
       some (failure_delay w.authstate.auth_starttime now r),
       if w.authstate.failcount + 1 ≥ mt then Outcome.exited .maxAuthTries
       else .ok { w with authstate :=
         { w.authstate with failcount := w.authstate.failcount + 1 } }) := by
  by_cases h : mt ≤ w.authstate.failcount + 1 <;>
    simp [send_msg_userauth_failure_v0, h]

lemma fail_v0_noincr_eq (mt : Nat) (now : Timespec) (r : Int) (pf : Bool) (w : World) :
    send_msg_userauth_failure_v0 mt now r pf false w =
      ([Msg.failure (methodsList w.authstate) pf], none,
       if w.authstate.failcount ≥ mt then Outcome.exited .maxAuthTries
       else .ok w) := by
  by_cases h : mt ≤ w.authstate.failcount <;>
    simp [send_msg_userauth_failure_v0, h]

/-- C5 amended: the part_000 send_msg_userauth_failure does behave as the
claim states per call — a counted call increments failcount by exactly 1
and terminates the connection exactly when the incremented count reaches
maxauthtries, an uncounted call leaves the count unchanged — but the
part_001 variant is an immediate return: no message, no increment, no
termination, so in that variant the claimed behaviour never happens. -/
theorem failcount_increment_per_variant :
    (∀ (mt : Nat) (now : Timespec) (r : Int) (pf : Bool) (w : World),
      ((send_msg_userauth_failure_v0 mt now r pf true w).2.2 = .exited .maxAuthTries ↔
        mt ≤ w.authstate.failcount + 1)
      ∧ (∀ w', (send_msg_userauth_failure_v0 mt now r pf true w).2.2 = .ok w' →
          w'.authstate.failcount = w.authstate.failcount + 1)
      ∧ (send_msg_userauth_failure_v0 mt now r pf true w).1
          = [Msg.failure (methodsList w.authstate) pf])
    ∧ (∀ (mt : Nat) (now : Timespec) (r : Int) (pf : Bool) (w : World),
        ((send_msg_userauth_failure_v0 mt now r pf false w).2.2 = .exited .maxAuthTries ↔
          mt ≤ w.authstate.failcount)
        ∧ (∀ w', (send_msg_userauth_failure_v0 mt now r pf false w).2.2 = .ok w' →
            w'.authstate.failcount = w.authstate.failcount))
    ∧ (∀ (pf incf : Bool) (w : World),
        send_msg_userauth_failure_v1 pf incf w = ([], none, .ok w)) := by
  refine ⟨?_, ?_, fun _ _ _ => rfl⟩
  · intro mt now r pf w
    rw [fail_v0_incr_eq]
    by_cases h : w.authstate.failcount + 1 ≥ mt
    · rw [if_pos h]
      exact ⟨by simp [h], by simp, rfl⟩
    · rw [if_neg h]
      refine ⟨by simp [h], ?_, rfl⟩
      intro w' hw
      simp at hw
      rw [← hw]
  · intro mt now r pf w
    rw [fail_v0_noincr_eq]
    by_cases h : w.authstate.failcount ≥ mt
    · rw [if_pos h]
      exact ⟨by simp [h], by simp⟩
    · rw [if_neg h]
      refine ⟨by simp [h], ?_⟩
      intro w' hw
      simp at hw
      rw [← hw]

/-- C5 witness: with maxauthtries 3 and two prior failures, the third
counted part_000 failure terminates the connection. -/
theorem failcount_increment_per_variant_witness :
    (send_msg_userauth_failure_v0 3 ⟨0, 0⟩ 0 false true
        (initWorld { zeroAuthState with failcount := 2 } none 0)).2.2
      = .exited .maxAuthTries :=
  (failcount_increment_per_variant.1 3 ⟨0, 0⟩ 0 false
      (initWorld { zeroAuthState with failcount := 2 } none 0)).1.mpr (by decide)

/-- C6 counterexample: a session that authenticates as alice and then as
bob is not terminated — the part_001 dispatcher answers both requests
with success, because no dispatcher path ever binds the username or
invokes checkusername. -/
theorem multiple_usernames_not_fatal_cex :
    reqAlice.1 ≠ reqBob.1
    ∧ (runRequests_v1 [reqAlice, reqBob] w0v1).1 = [Msg.success, Msg.success]
    ∧ ((runRequests_v1 [reqAlice, reqBob] w0v1).2).isOk = true := by
  refine ⟨by decide, by decide, by decide⟩

/-- C6 amended: the uniqueness guard lives only in checkusername, which
does exit fatally when a bound username differs from the presented one
(provided the new name passes the earlier length and NUL checks); but the
dispatcher never calls checkusername, the username field is never bound
by any request, and a session presenting two different usernames
continues and is admitted rather than terminated. -/
theorem username_binding_dead_code :
    (∀ (env : CheckEnv) (u u0 : Bytes) (ul : Nat) (a : AuthState),
      a.username = some u0 → u ≠ u0 → ul ≤ env.maxUsernameLen → strlen u = ul →
      checkusername env u ul a = .exited .multipleUsernames)
    ∧ (∀ (reqs : List (Bytes × Bytes × Bytes)) (w : World),
        ((runRequests_v1 reqs w).2).isOk = true
        ∧ ∀ w', (runRequests_v1 reqs w).2 = .ok w' →
            w'.authstate.username = w.authstate.username)
    ∧ (∀ (reqs : List (Bytes × Bytes × Bytes)) (w w' : World),
        (runRequests_v0 reqs w).2 = .ok w' →
        w'.authstate.username = w.authstate.username) := by
  refine ⟨?_, ?_, ?_⟩
  · intro env u u0 ul a ha hne hlen hstr
    unfold checkusername
    rw [if_neg (by omega), if_neg (by simp [hstr]), ha]
    simp only []
    rw [if_pos hne]
  · intro reqs w
    exact ⟨runRequests_v1_isOk reqs w,
      fun w' h => (runRequests_v1_fields reqs w w' h).2.1⟩
  · intro reqs w w' h
    exact (runRequests_v0_fields reqs w w' h).2.1

/-- C6 witness: checkusername itself does exit on a changed username at a
concrete input. -/
theorem username_binding_dead_code_witness :
    checkusername envX (str2bytes "bob") 3
        { zeroAuthState with username := some (str2bytes "alice") }
      = .exited .multipleUsernames :=
  username_binding_dead_code.1 envX (str2bytes "bob") (str2bytes "alice") 3
    { zeroAuthState with username := some (str2bytes "alice") }
    rfl (by decide) (by decide) (by decide)

/-- C9 counterexample: the drawn random bytes are interpreted as a signed
suseconds_t, and the C % is a truncated (sign-preserving) remainder, so a
negative draw yields a jitter below min_delay — outside the claimed
interval — and, combined with an elapsed time at most min_delay, a
negative timespec handed to nanosleep by the part_000 failure branch. -/
theorem negative_jitter_cex :
    rand_delay (-1) = mindelay - 1
    ∧ ¬ (mindelay ≤ rand_delay (-1))
    ∧ failure_delay ⟨0, 0⟩ ⟨0, 200000000⟩ (-99999999) = ⟨0, -49999999⟩
    ∧ (send_msg_userauth_failure_v0 10 ⟨0, 200000000⟩ (-99999999) false true wF).2.1
        = some ⟨0, -49999999⟩
    ∧ (-49999999 : Int) < 0 := by
  refine ⟨by decide, by decide, by decide, by decide, by decide⟩

/-- C9 amended: the jitter equals min_delay plus the truncated remainder
of the signed random draw, so over all draws it lies in the open interval
(min_delay − var_delay, min_delay + var_delay), and only for nonnegative
draws in [min_delay, min_delay + var_delay); the compensating branch is
taken when the elapsed seconds are 0 and the elapsed nanoseconds are at
most (not strictly below) min_delay, sleeping jitter − elapsed, the other
branch sleeping the full jitter; the computed duration is nonnegative
whenever the draw is nonnegative, but a negative draw can make it
negative. -/
theorem failure_delay_bounds :
    (∀ r : Int, mindelay - vardelay < rand_delay r ∧ rand_delay r < mindelay + vardelay)
    ∧ (∀ r : Int, 0 ≤ r → mindelay ≤ rand_delay r ∧ rand_delay r < mindelay + vardelay)
    ∧ (∀ (st now : Timespec) (r : Int),
        ((elapsed_time st now).tv_sec = 0 ∧ (elapsed_time st now).tv_nsec ≤ mindelay →
          failure_delay st now r = ⟨0, rand_delay r - (elapsed_time st now).tv_nsec⟩)
        ∧ (¬ ((elapsed_time st now).tv_sec = 0 ∧ (elapsed_time st now).tv_nsec ≤ mindelay) →
          failure_delay st now r = ⟨0, rand_delay r⟩))
    ∧ (∀ (st now : Timespec) (r : Int), 0 ≤ r →
        0 ≤ (failure_delay st now r).tv_nsec) := by
  have hv : (0 : Int) < vardelay := by norm_num [vardelay]
  refine ⟨?_, ?_, ?_, ?_⟩
  · intro r
    have h1 := tmod_lower_bound r vardelay hv
    have h2 := Int.tmod_lt_of_pos r hv
    constructor <;> simp only [rand_delay] <;> omega
  · intro r hr
    have h1 := Int.tmod_nonneg vardelay hr
    have h2 := Int.tmod_lt_of_pos r hv
    constructor <;> simp only [rand_delay] <;> omega
  · intro st now r
    constructor <;> intro h
    · simp only [failure_delay]
      rw [if_pos h, h.1]
    · simp only [failure_delay]
      rw [if_neg h]
  · intro st now r hr
    have h1 := Int.tmod_nonneg vardelay hr
    simp only [failure_delay]
    split_ifs with hc
    · simp only [rand_delay, mindelay] at *
      omega
    · simp only [rand_delay, mindelay] at *
      omega

/-- C9 witness: a nonnegative draw gives a jitter at least min_delay and
a nonnegative sleep duration at a concrete time pair. -/
theorem failure_delay_bounds_witness :
    (mindelay ≤ rand_delay 42 ∧ rand_delay 42 < mindelay + vardelay)
    ∧ 0 ≤ (failure_delay ⟨0, 0⟩ ⟨0, 300000000⟩ 42).tv_nsec :=
  ⟨failure_delay_bounds.2.1 42 (by norm_num),
   failure_delay_bounds.2.2.2 ⟨0, 0⟩ ⟨0, 300000000⟩ 42 (by norm_num)⟩

lemma checkusername_policy_flagged (env : CheckEnv) (a : AuthState)
    (h : a.checkusername_failed = true) : checkusername_policy env a = (false, a) := by
  unfold checkusername_policy
  rw [if_pos h]

/-- C7: once the cached rejection flag is set, checkusername returns
DROPBEAR_FAILURE for the bound username immediately and unchanged — for
every policy environment, so no policy check is re-evaluated — and no
call whatsoever (any username, any length, any environment) can return
DROPBEAR_SUCCESS while the flag is set. -/
theorem cached_rejection_sticks :
    (∀ (env : CheckEnv) (u : Bytes) (a : AuthState),
      a.checkusername_failed = true → a.username = some u →
      u.length ≤ env.maxUsernameLen → strlen u = u.length →
      checkusername env u u.length a = .ok (false, a))
    ∧ (∀ (env : CheckEnv) (u : Bytes) (ul : Nat) (a : AuthState),
        a.checkusername_failed = true →
        acceptedResult (checkusername env u ul a) = false) := by
  constructor
  · intro env u a hflag huser hlen hstr
    unfold checkusername
    rw [if_neg (by omega), if_neg (by simp [hstr]), huser]
    simp only []
    rw [if_neg (by simp)]
    exact congrArg Outcome.ok (checkusername_policy_flagged env a hflag)
  · intro env u ul a hflag
    unfold checkusername
    split_ifs with h1 h2
    · rfl
    · rfl
    · rcases ha : a.username with _ | u0
      · simp only [ha]
        have hf : ({ fill_passwd (env.getpwnam u) a with
            username := some u } : AuthState).checkusername_failed = true := by
          cases hp : env.getpwnam u <;> simp [fill_passwd, hflag]
        rw [checkusername_policy_flagged env _ hf]
        rfl
      · simp only [ha]
        by_cases hne : u ≠ u0
        · rw [if_pos hne]
          rfl
        · rw [if_neg hne, checkusername_policy_flagged env a hflag]
          rfl

/-- The authstate of a session whose user dave was already policy
rejected. -/
def aFlagged : AuthState :=
  { zeroAuthState with checkusername_failed := true, username := some (str2bytes "dave") }

/-- C7 witness: the cached rejection at a concrete environment and
username. -/
theorem cached_rejection_sticks_witness :
    checkusername envX (str2bytes "dave") (str2bytes "dave").length aFlagged
      = .ok (false, aFlagged) :=
  cached_rejection_sticks.1 envX (str2bytes "dave") aFlagged rfl rfl (by decide) (by decide)

/-- The acceptance condition exactly as claim C8 words it: the account
exists; in non-multi-user (single-account) mode the uid equals the
effective uid (no condition in multi-user mode); root login permitted if
the account is the superuser; group restriction satisfied when
configured; and the (defaulted) shell appears in the shell list. -/
def checkusername_claim_accepts (env : CheckEnv) (u : Bytes) : Bool :=
  match env.getpwnam u with
  | none => false
  | some p =>
    (env.multiuser || env.euid == p.pw_uid)
    && (!env.norootlogin || !(p.pw_uid == 0))
    && (match env.restrictGroup with
        | some gid => check_group_membership gid env.grouplist
        | none => true)
    && env.shells.contains (if p.pw_shell = "" then "/bin/sh" else p.pw_shell)

/-- The acceptance condition the source actually implements: the uid
check is skipped only when the build is multi-user AND the server runs
with effective uid 0. -/
def checkusername_source_accepts (env : CheckEnv) (u : Bytes) : Bool :=
  match env.getpwnam u with
  | none => false
  | some p =>
    ((env.multiuser && env.euid == 0) || env.euid == p.pw_uid)
    && (!env.norootlogin || !(p.pw_uid == 0))
    && (match env.restrictGroup with
        | some gid => check_group_membership gid env.grouplist
        | none => true)
    && env.shells.contains (if p.pw_shell = "" then "/bin/sh" else p.pw_shell)

/-- C8 counterexample: in a multi-user build running with effective uid 5
and an account carol with uid 7, every check named by the claim passes,
yet checkusername rejects, because the source also enforces the uid check
whenever the effective uid is nonzero. -/
theorem uid_check_multiuser_cex :
    checkusername_claim_accepts envX (str2bytes "carol") = true
    ∧ acceptedResult
        (checkusername envX (str2bytes "carol") (str2bytes "carol").length zeroAuthState)
      = false := by
  refine ⟨by decide, by decide⟩

lemma acceptedResult_ok (pr : Bool × AuthState) :
    acceptedResult (.ok pr) = pr.1 := by
  rcases pr with ⟨b, s⟩
  cases b <;> rfl

lemma checkusername_policy_fst (env : CheckEnv) (a : AuthState)
    (hflag : a.checkusername_failed = false) :
    (checkusername_policy env a).1 =
      (!a.pw_name.isNone
       && ((env.multiuser && env.euid == 0) || env.euid == a.pw_uid)
       && (!env.norootlogin || !(a.pw_uid == 0))
       && (match env.restrictGroup with
           | some gid => check_group_membership gid env.grouplist
           | none => true)
       && env.shells.contains (if a.pw_shell = "" then "/bin/sh" else a.pw_shell)) := by
  unfold checkusername_policy
  rw [if_neg (by simp [hflag])]
  rcases hg : env.restrictGroup with _ | gid <;> simp only [hg] <;>
    cases hn : a.pw_name.isNone <;>
    cases hA : (env.multiuser && env.euid == 0) <;>
    cases hB : (env.euid == a.pw_uid : Bool) <;>
    cases hr : env.norootlogin <;>
    cases hz : (a.pw_uid == 0 : Bool) <;>
    by_cases hs : ((if a.pw_shell = "" then "/bin/sh" else a.pw_shell) ∈ env.shells)
  all_goals try simp [hn, hA, hB, hr, hz, hs]
  all_goals cases hG : check_group_membership gid env.grouplist <;>
    simp [hn, hA, hB, hr, hz, hs, hG]

/-- C8 amended: on a fresh state (no bound username, no cached verdict)
with a well-formed username, checkusername accepts exactly when the
account exists, the uid check passes (euid equals the account uid, unless
the build is multi-user and the effective uid is 0), root login is
permitted if the account is the superuser, a configured group restriction
is met, and the defaulted shell is listed — evaluated in that order with
short-circuit and verdict caching on first failure. -/
theorem checkusername_accept_iff :
    ∀ (env : CheckEnv) (u : Bytes) (a : AuthState),
      a.username = none → a.checkusername_failed = false →
      u.length ≤ env.maxUsernameLen → strlen u = u.length →
      acceptedResult (checkusername env u u.length a)
        = checkusername_source_accepts env u := by
  intro env u a huser hflag hlen hstr
  unfold checkusername
  rw [if_neg (by omega), if_neg (by simp [hstr])]
  simp only [huser]
  unfold checkusername_source_accepts
  rcases hp : env.getpwnam u with _ | p <;> simp only [hp]
  · simp [fill_passwd, checkusername_policy, hflag, acceptedResult]
  · rw [acceptedResult_ok, checkusername_policy_fst]
    · simp [fill_passwd]
    · simp [fill_passwd, hflag]

/-- C8 witness: in a single-account build running as the uid of carol the
source condition evaluates to true and checkusername accepts. -/
theorem checkusername_accept_iff_witness :
    acceptedResult
        (checkusername envY (str2bytes "carol") (str2bytes "carol").length zeroAuthState)
      = checkusername_source_accepts envY (str2bytes "carol")
    ∧ checkusername_source_accepts envY (str2bytes "carol") = true :=
  ⟨checkusername_accept_iff envY (str2bytes "carol") zeroAuthState rfl rfl
      (by decide) (by decide),
   by decide⟩

end DropbearAuth
